import Mathlib

/-!
Verification of the evidence-span locator and highlighting pipeline of
`intelligent-mutual-fund-prospectus-document-processing/app.py`.

Strings are embedded as `List Char` (Python strings are sequences of code
points, indexed by character offset).  Pure Python functions become Lean
functions; `os.environ` is passed explicitly as the list of set variable
names.  The helpers imported from `utils.utils_text`
(`text_tokenizer`, `spans_of_tokens_ordered`, `spans_of_tokens_compact`,
`spans_of_tokens_all`) are not part of the repository snapshot, so they are
modelled from the specification (marked `Modelled from the spec:` below);
everything else is translated directly from `app.py`.
-/

/-- The set of markup-significant characters matched by the character class
of `markdown_escape` in `app.py`: dollar, plus, hash, backtick, and the two
curly braces. -/
def isMarkupChar (c : Char) : Bool :=
  c = '$' || c = '+' || c = '#' || c = Char.ofNat 96 || c = Char.ofNat 123 || c = Char.ofNat 125

/-- `markdown_escape` from `app.py` line 157:
`re.sub(r"([\$\+\#\`\{\}])", "\\\1", text)`.
The replacement template is the non-raw Python literal `"\\\1"`, which parses
to the two characters backslash, U+0001 (octal escape `\1`), and CPython's
`re.sub` leaves the unknown escape backslash+U+0001 alone, so every matched
markup character is replaced by backslash followed by U+0001 — not by a
backslash followed by the character itself. -/
def markdown_escape : List Char → List Char
  | [] => []
  | c :: cs =>
      (if isMarkupChar c then ['\\', Char.ofNat 1] else [c]) ++ markdown_escape cs

/-- The character class `[\d\.\s]` of `clean_question` (ASCII part: decimal
digits, the literal dot, and the whitespace characters space, tab, newline,
carriage return, vertical tab, form feed). -/
def isQstrip (c : Char) : Bool :=
  c.isDigit || c = '.' || c = ' ' || c = '\t' || c = '\n' || c = '\r' ||
    c = Char.ofNat 11 || c = Char.ofNat 12

/-- `clean_question` from `app.py` lines 79-81:
`re.sub(r"^[\d\.\s]+", "", s)` — the anchored greedy match removes exactly
the maximal leading run of digit/dot/whitespace characters. -/
def clean_question (s : List Char) : List Char :=
  s.dropWhile isQstrip

/-- The environment variable name checked at module load (`app.py` line 30). -/
def bucketKey : List Char :=
  "BUCKET_NAME".toList

/-- The exception message raised when `BUCKET_NAME` is missing (`app.py` line 31). -/
def bucketErr : List Char :=
  "S3 Bucket must be set for Textract processing. Please see README for more information".toList

/-- The page title configured by the first UI statement executed after the
bucket check (`app.py` line 34). -/
def pageTitle : List Char :=
  "FSI Q/A App".toList

/-- Module start-up of `app.py` (lines 30-34): the environment is the list of
set variable names; if `BUCKET_NAME` is absent an exception is raised,
otherwise execution proceeds to the page configuration. -/
def appStart (env : List (List Char)) : Except (List Char) (List Char) :=
  if bucketKey ∈ env then Except.ok pageTitle else Except.error bucketErr

/-- `markdown_bgcolor` from `app.py` lines 83-84:
wraps `text` in an HTML span carrying a background color. -/
def markdown_bgcolor (text bg : List Char) : List Char :=
  "<span style=\"background-color:".toList ++ bg ++ ";\">".toList ++ text ++ "</span>".toList

/-- `markdown_fgcolor` from `app.py` lines 86-87: produces `:color[text]`. -/
def markdown_fgcolor (text fg : List Char) : List Char :=
  ":".toList ++ fg ++ "[".toList ++ text ++ "]".toList

/-- An ASCII alphanumeric character (the tokenizer's unit characters). -/
def isAlnumChar (c : Char) : Bool :=
  c.isAlpha || c.isDigit

/-- A document token: its normalized text together with the half-open
character-offset range `(start, stop)` of the underlying fragment. -/
def DTok : Type :=
  List Char × Nat × Nat

/-- Modelled from the spec: the tokenizer of `utils.utils_text` (absent from
the snapshot).  Scans the text left to right, emitting each maximal run of
alphanumeric characters lower-cased together with its character-offset
boundaries (splitting on whitespace and punctuation, stripping leading and
trailing non-alphanumerics, dropping empty units).  The accumulator holds the
current run reversed with its start offset. -/
def tokAux : List Char → Nat → Option (List Char × Nat) → List DTok
  | [], _, none => []
  | [], i, some (acc, s) => [(acc.reverse.map Char.toLower, s, i)]
  | c :: cs, i, none =>
      if isAlnumChar c then tokAux cs (i + 1) (some ([c], i))
      else tokAux cs (i + 1) none
  | c :: cs, i, some (acc, s) =>
      if isAlnumChar c then tokAux cs (i + 1) (some (c :: acc, s))
      else (acc.reverse.map Char.toLower, s, i) :: tokAux cs (i + 1) none

/-- Modelled from the spec: tokenization with source offsets, used by the
span locator to map token positions back to character spans. -/
def tokenizeSpans (text : List Char) : List DTok :=
  tokAux text 0 none

/-- Modelled from the spec: `text_tokenizer` of `utils.utils_text` (absent
from the snapshot) — the normalized token sequence of a text. -/
def text_tokenizer (text : List Char) : List (List Char) :=
  (tokenizeSpans text).map (fun d => d.1)

/-- Select the candidate window with the fewest document tokens
(first component); on ties the earliest-scanned (leftmost) candidate wins. -/
def pickMin (cands : List (Nat × Nat × Nat)) : Option (Nat × Nat × Nat) :=
  cands.foldl
    (fun best c =>
      match best with
      | none => some c
      | some b => if c.1 < b.1 then some c else some b)
    none

/-- Modelled from the spec: greedy in-order matching of the remaining target
tokens against the rest of the document tokens; `n` counts document tokens
already inside the window.  Returns the final window token count and the end
offset of the last matched token. -/
def ordMatchRest : List DTok → List (List Char) → Nat → Option (Nat × Nat)
  | [], _, _ => none
  | (w, _, e) :: rest, t :: ts, n =>
      if w = t then
        match ts with
        | [] => some (n + 1, e)
        | _ => ordMatchRest rest ts (n + 1)
      else ordMatchRest rest (t :: ts) (n + 1)
  | _, [], _ => none

/-- Modelled from the spec: every candidate ordered window, one per document
position whose token equals the first target; each candidate records its
token count and its character span. -/
def ordCandidates : List DTok → List (List Char) → List (Nat × Nat × Nat)
  | [], _ => []
  | _ :: rest, [] => ordCandidates rest []
  | (w, s, e) :: rest, t :: ts =>
      (if w = t then
        match ts with
        | [] => [(1, s, e)]
        | _ =>
          match ordMatchRest rest ts 1 with
          | some (n, e2) => [(n, s, e2)]
          | none => []
      else []) ++ ordCandidates rest (t :: ts)

/-- Modelled from the spec: `spans_of_tokens_ordered` of `utils.utils_text`
(absent from the snapshot).  Tier 1: the shortest contiguous window, in
token-index space mapped back to character offsets, whose tokens contain
every target token in the same relative order (repetitions matched to
distinct document positions); leftmost window wins ties; empty target
collection or no window yields the empty span list. -/
def spans_of_tokens_ordered (text : List Char) (targets : List (List Char)) :
    List (Nat × Nat) :=
  if targets.isEmpty then []
  else
    match pickMin (ordCandidates (tokenizeSpans text) targets) with
    | some (_, s, e) => [(s, e)]
    | none => []

/-- Modelled from the spec: sliding coverage scan for tier 2 — consume
document tokens, erasing each from the needed set, until the needed set is
exhausted; returns the window token count and end offset. -/
def coverScan : List DTok → List (List Char) → Nat → Option (Nat × Nat)
  | [], _, _ => none
  | (w, _, e) :: rest, needed, n =>
      let needed2 := needed.erase w
      if needed2.isEmpty then some (n + 1, e)
      else coverScan rest needed2 (n + 1)

/-- Modelled from the spec: every candidate any-order window, one per
starting document position. -/
def compactCandidates : List DTok → List (List Char) → List (Nat × Nat × Nat)
  | [], _ => []
  | (w, s, e) :: rest, targets =>
      (let needed := targets.erase w
       if needed.isEmpty then [(1, s, e)]
       else
         match coverScan rest needed 1 with
         | some (n, e2) => [(n, s, e2)]
         | none => []) ++ compactCandidates rest targets

/-- Modelled from the spec: `spans_of_tokens_compact` of `utils.utils_text`
(absent from the snapshot).  Tier 2: the shortest contiguous window
containing every distinct target token in any order (classic smallest-window
search), leftmost on ties; empty target collection or no covering window
yields the empty span list. -/
def spans_of_tokens_compact (text : List Char) (targets : List (List Char)) :
    List (Nat × Nat) :=
  if targets.isEmpty then []
  else
    match pickMin (compactCandidates (tokenizeSpans text) targets.dedup) with
    | some (_, s, e) => [(s, e)]
    | none => []

/-- Modelled from the spec: `spans_of_tokens_all` of `utils.utils_text`
(absent from the snapshot).  Tier 3: the span of every occurrence of every
target token anywhere in the document, in document order (so sorted by start
offset, duplicates impossible since document tokens have distinct starts). -/
def spans_of_tokens_all (text : List Char) (targets : List (List Char)) :
    List (Nat × Nat) :=
  (tokenizeSpans text).filterMap
    (fun d => if d.1 ∈ targets then some (d.2.1, d.2.2) else none)

/-- Python slicing `t[a:b]` (non-negative indices, clamped to the length). -/
def pySlice (t : List Char) (a b : Nat) : List Char :=
  (t.take b).drop a

/-- The rendering loop of `markdown2` (`app.py` lines 142-150): walk the
spans keeping the cursor `k`, copy `text[k:i]` verbatim, append the wrapped
`text[i:j]`, and finish with `text[k:]`. -/
def renderGo (text : List Char) (wrap : List Char → List Char) :
    Nat → List (Nat × Nat) → List Char
  | k, [] => text.drop k
  | k, (i, j) :: rest => pySlice text k i ++ wrap (pySlice text i j) ++ renderGo text wrap j rest

/-- Rendering a span list over a text with a given span wrapper. -/
def renderSpans (text : List Char) (spans : List (Nat × Nat))
    (wrap : List Char → List Char) : List Char :=
  renderGo text wrap 0 spans

/-- Python truthiness of an optional string argument (`if bg_color:`):
`None` and the empty string are falsy. -/
def pyTruthy : Option (List Char) → Bool
  | none => false
  | some s => !s.isEmpty

/-- Python f-string formatting of an optional string (`None` prints as
`"None"`). -/
def pyStrOpt : Option (List Char) → List Char
  | none => "None".toList
  | some s => s

/-- The per-span wrapper chosen by `markdown2` (`app.py` lines 146-149):
background-color wrapping when `bg_color` is truthy, otherwise the
`:color[text]` foreground form. -/
def markdownWrap (fg bg : Option (List Char)) (s : List Char) : List Char :=
  if pyTruthy bg then markdown_bgcolor s (pyStrOpt bg)
  else markdown_fgcolor s (pyStrOpt fg)

/-- The span-location dispatch of `markdown2` (`app.py` lines 132-140):
when fewer than 20 tokens, try `spans_of_tokens_ordered` then, if empty,
`spans_of_tokens_compact`; with 20 or more tokens neither is attempted; in
either case an empty result falls back to `spans_of_tokens_all`. -/
def markdown2_locate (text : List Char) (tokens : List (List Char)) :
    List (Nat × Nat) :=
  let spans :=
    if tokens.length < 20 then
      let s1 := spans_of_tokens_ordered text tokens
      if s1.isEmpty then spans_of_tokens_compact text tokens else s1
    else []
  if spans.isEmpty then spans_of_tokens_all text tokens else spans

/-- `markdown2` from `app.py` lines 124-152: locate the evidence spans and
render the text with each span wrapped according to the color arguments. -/
def markdown2 (text : List Char) (tokens : List (List Char))
    (fg bg : Option (List Char)) : List Char :=
  renderSpans text (markdown2_locate text tokens) (markdownWrap fg bg)

/-- The three matching strategies of the locator. -/
inductive Tier where
  | ordered
  | compact
  | allOcc
deriving DecidableEq

/-- The dispatch of `markdown2` instrumented with the list of tier functions
it actually calls, in call order (the sequence of calls at `app.py` lines
133-139).  Its first component coincides with `markdown2_locate`. -/
def markdown2_trace (text : List Char) (tokens : List (List Char)) :
    List (Nat × Nat) × List Tier :=
  if tokens.length < 20 then
    let s1 := spans_of_tokens_ordered text tokens
    if s1.isEmpty then
      let s2 := spans_of_tokens_compact text tokens
      if s2.isEmpty then (spans_of_tokens_all text tokens, [.ordered, .compact, .allOcc])
      else (s2, [.ordered, .compact])
    else (s1, [.ordered])
  else (spans_of_tokens_all text tokens, [.allOcc])

/-- The background color of the answer-token highlighting pass
(`app.py` line 320). -/
def cGreen : List Char :=
  "#90EE90".toList

/-- The background color of the miss-token highlighting pass
(`app.py` line 321). -/
def cRed : List Char :=
  "red".toList

/-- The first highlighting pass of `main` (`app.py` lines 318-320): escape
the extracted text, then highlight the answer tokens in green. -/
def mainFirstPass (all_text : List Char) (tokens_answer : List (List Char)) :
    List Char :=
  markdown2 (markdown_escape all_text) tokens_answer none (some cGreen)

/-- The highlighting sequence of `main` (`app.py` lines 318-321): the second
pass receives the value of `markd` produced by the first pass. -/
def mainHighlight (all_text : List Char)
    (tokens_answer tokens_miss : List (List Char)) : List Char :=
  let markd := markdown_escape all_text
  let markd2 := markdown2 markd tokens_answer none (some cGreen)
  markdown2 markd2 tokens_miss none (some cRed)

/-- Identity wrapper: rendering with it erases the inserted style markers. -/
def idWrap (s : List Char) : List Char :=
  s

/-- Background-color wrapper with a fixed color. -/
def bgWrap (color s : List Char) : List Char :=
  markdown_bgcolor s color

/-- Foreground-color wrapper with a fixed color. -/
def fgWrap (color s : List Char) : List Char :=
  markdown_fgcolor s color

/-- Well-formedness of a span list from cursor `k`: starts are at or after
the cursor, each span's start is at most its end, and the spans are
non-overlapping and ascending. -/
def spansOK : Nat → List (Nat × Nat) → Bool
  | _, [] => true
  | k, (i, j) :: rest => decide (k ≤ i) && decide (i ≤ j) && spansOK j rest

/-- A 20-token document text used to exercise the large-token-count path. -/
def c1text : List Char :=
  "a b c d e f g h i j k l m n o p q r s t".toList

/-- Twenty distinct single-letter tokens (the smallest collection at the
locator's size ceiling). -/
def c1tokens : List (List Char) :=
  ["a", "b", "c", "d", "e", "f", "g", "h", "i", "j",
   "k", "l", "m", "n", "o", "p", "q", "r", "s", "t"].map String.toList

/-- A sample text for rendering checks. -/
def c6text : List Char :=
  "abcdef".toList

/-- A sample sorted, non-overlapping span list over `c6text`. -/
def c6spans : List (Nat × Nat) :=
  [(1, 2), (4, 6)]

/-- C5. The claim states that `markdown_escape` replaces each
markup-significant character by a backslash followed by that same character.
The code instead replaces it by backslash followed by U+0001 (the Python
literal `"\\\1"` was meant to be the raw `r"\\\1"`); evaluating the code at
the input `"$"` shows the escaped character is destroyed, contradicting the
documented intent (compare `app.py` line 120, `text.replace("$", "\\$")`). -/
theorem markdown_escape_dollar_bug :
    markdown_escape ['$'] = ['\\', Char.ofNat 1] ∧
      markdown_escape ['$'] ≠ ['\\', '$'] := by
  decide

/-- C9. `clean_question` is idempotent: it strips exactly the maximal leading
run of digit/dot/whitespace characters, so its output never begins with such
a character and a second application strips nothing. -/
theorem clean_question_idem (s : List Char) :
    clean_question (clean_question s) = clean_question s ∧
      ((clean_question s).head?.all fun c => !isQstrip c) = true := by
  induction s with
  | nil => exact ⟨rfl, rfl⟩
  | cons c cs ih =>
    by_cases h : isQstrip c = true
    · simpa [clean_question, List.dropWhile, h] using ih
    · have h' : isQstrip c = false := by
        cases hb : isQstrip c with
        | false => rfl
        | true => exact absurd hb h
      simp [clean_question, List.dropWhile, h']

/-- C10. At module start-up the application raises an exception if and only
if the environment variable `BUCKET_NAME` is not set; when it is set,
start-up proceeds past the check (to the page configuration) with no other
effect. -/
theorem appStart_bucket_check (env : List (List Char)) :
    (appStart env = Except.error bucketErr ↔ bucketKey ∉ env) ∧
      (appStart env = Except.ok pageTitle ↔ bucketKey ∈ env) := by
  by_cases h : bucketKey ∈ env <;> simp [appStart, h]

/-- Tier 3 finds no occurrences when the target collection is empty. -/
theorem spans_of_tokens_all_nil (text : List Char) :
    spans_of_tokens_all text [] = [] := by
  simp [spans_of_tokens_all]

/-- C2. With fewer than 20 tokens the three tiers are evaluated in the fixed
order ordered → compact → all-occurrences, and the first tier returning a
non-empty span list determines the locator's result; later tiers are not
invoked once a tier returns a non-empty result (the trace records exactly
the tier functions called). -/
theorem markdown2_tier_order (text : List Char) (tokens : List (List Char))
    (h : tokens.length < 20) :
    (spans_of_tokens_ordered text tokens ≠ [] →
        markdown2_locate text tokens = spans_of_tokens_ordered text tokens ∧
          (markdown2_trace text tokens).2 = [Tier.ordered]) ∧
    (spans_of_tokens_ordered text tokens = [] →
      spans_of_tokens_compact text tokens ≠ [] →
        markdown2_locate text tokens = spans_of_tokens_compact text tokens ∧
          (markdown2_trace text tokens).2 = [Tier.ordered, Tier.compact]) ∧
    (spans_of_tokens_ordered text tokens = [] →
      spans_of_tokens_compact text tokens = [] →
        markdown2_locate text tokens = spans_of_tokens_all text tokens ∧
          (markdown2_trace text tokens).2 =
            [Tier.ordered, Tier.compact, Tier.allOcc]) := by
  refine ⟨?_, ?_, ?_⟩
  · intro h1
    have e1 : (spans_of_tokens_ordered text tokens).isEmpty = false := by
      cases hs : spans_of_tokens_ordered text tokens with
      | nil => exact absurd hs h1
      | cons p l => rfl
    simp [markdown2_locate, markdown2_trace, h, e1]
  · intro h1 h2
    have e2 : (spans_of_tokens_compact text tokens).isEmpty = false := by
      cases hs : spans_of_tokens_compact text tokens with
      | nil => exact absurd hs h2
      | cons p l => rfl
    simp [markdown2_locate, markdown2_trace, h, h1, e2]
  · intro h1 h2
    simp [markdown2_locate, markdown2_trace, h, h1, h2]

/-- Witness for the tier ordering: a one-token request on a one-character
document is resolved by tier 1 alone. -/
theorem markdown2_tier_order_witness :
    ([['a']] : List (List Char)).length < 20 ∧
      spans_of_tokens_ordered ['a'] [['a']] ≠ [] ∧
      markdown2_locate ['a'] [['a']] = spans_of_tokens_ordered ['a'] [['a']] ∧
      (markdown2_trace ['a'] [['a']]).2 = [Tier.ordered] :=
  ⟨by decide, by decide,
    ((markdown2_tier_order ['a'] [['a']] (by decide)).1 (by decide)).1,
    ((markdown2_tier_order ['a'] [['a']] (by decide)).1 (by decide)).2⟩

/-- C1 counterexample. At exactly 20 tokens the claim asserts that
evaluation falls through to tier 2 (`spans_of_tokens_compact`); on a
document where tier 2 would return a non-empty single window, the locator
instead calls only the tier-3 all-occurrences fallback and returns its
different result, so tier 2 is never consulted. -/
theorem markdown2_large_skip_counterexample :
    20 ≤ c1tokens.length ∧
      spans_of_tokens_compact c1text c1tokens ≠ [] ∧
      (markdown2_trace c1text c1tokens).2 = [Tier.allOcc] ∧
      markdown2_locate c1text c1tokens ≠ spans_of_tokens_compact c1text c1tokens := by
  decide

/-- C1 amended. With 20 or more tokens the locator skips both tier 1 and
tier 2: evaluation goes directly to the tier-3 all-occurrences fallback,
whose result is returned. -/
theorem markdown2_large_skips_both (text : List Char) (tokens : List (List Char))
    (h : 20 ≤ tokens.length) :
    markdown2_locate text tokens = spans_of_tokens_all text tokens ∧
      (markdown2_trace text tokens).2 = [Tier.allOcc] := by
  have h' : ¬ tokens.length < 20 := by omega
  constructor
  · simp [markdown2_locate, h']
  · simp [markdown2_trace, h']

/-- Witness for the amended C1 at the 20-token input. -/
theorem markdown2_large_skips_both_witness :
    20 ≤ c1tokens.length ∧
      markdown2_locate c1text c1tokens = spans_of_tokens_all c1text c1tokens ∧
      (markdown2_trace c1text c1tokens).2 = [Tier.allOcc] :=
  ⟨by decide, (markdown2_large_skips_both c1text c1tokens (by decide)).1,
    (markdown2_large_skips_both c1text c1tokens (by decide)).2⟩

/-- C3 counterexample. With an empty token collection the locator does
return the empty span list, but not "without invoking any tier": the
dispatch calls all three tier functions (each returning empty), as the
trace of calls at a concrete document shows. -/
theorem markdown2_empty_tokens_counterexample :
    markdown2_locate ['x'] [] = [] ∧
      (markdown2_trace ['x'] []).2 = [Tier.ordered, Tier.compact, Tier.allOcc] ∧
      (markdown2_trace ['x'] []).2 ≠ [] := by
  decide

/-- C3 amended. For every document text, an empty token collection makes
every tier return an empty span list, so the locator returns the empty span
list and the highlighting function returns the input text unchanged — but
all three tier functions are invoked along the way. -/
theorem markdown2_empty_tokens (text : List Char) (fg bg : Option (List Char)) :
    markdown2_locate text [] = [] ∧
      markdown2 text [] fg bg = text ∧
      (markdown2_trace text []).2 = [Tier.ordered, Tier.compact, Tier.allOcc] := by
  have h1 : spans_of_tokens_ordered text [] = [] := by
    simp [spans_of_tokens_ordered]
  have h2 : spans_of_tokens_compact text [] = [] := by
    simp [spans_of_tokens_compact]
  have h3 := spans_of_tokens_all_nil text
  refine ⟨?_, ?_, ?_⟩
  · simp [markdown2_locate, h1, h2, h3]
  · simp [markdown2, renderSpans, renderGo, markdown2_locate, h1, h2, h3]
  · simp [markdown2_trace, h1, h2]

/-- C4 counterexample. In `main` the second highlighting call receives the
output of the first pass, which on this input differs from the original
(escaped) document text, and the final result differs from what a second
pass over the original text would produce. -/
theorem mainHighlight_counterexample :
    mainFirstPass ['a'] [['a']] ≠ markdown_escape ['a'] ∧
      mainHighlight ['a'] [['a']] [['a']] ≠
        markdown2 (markdown_escape ['a']) [['a']] none (some cRed) := by
  decide

/-- C4 amended. The two highlight requests of `main` are applied in a
pipeline: the second call operates on the text produced by the first
highlighting pass (the original escaped text with the first pass's markers
inserted), not on the original document text. -/
theorem mainHighlight_sequential (t : List Char) (a m : List (List Char)) :
    mainHighlight t a m = markdown2 (mainFirstPass t a) m none (some cRed) ∧
      mainFirstPass t a = markdown2 (markdown_escape t) a none (some cGreen) :=
  ⟨rfl, rfl⟩

/-- Adjacent Python slices of one text concatenate to the enclosing slice. -/
theorem pySlice_glue (t : List Char) : ∀ a b c : Nat, a ≤ b → b ≤ c →
    pySlice t a b ++ pySlice t b c = pySlice t a c := by
  induction t with
  | nil => intro a b c _ _; simp [pySlice]
  | cons x t ih =>
    intro a b c hab hbc
    cases a with
    | zero =>
      cases b with
      | zero => simp [pySlice]
      | succ b =>
        cases c with
        | zero => exact absurd hbc (by omega)
        | succ c =>
          have h := ih 0 b c (Nat.zero_le _) (Nat.le_of_succ_le_succ hbc)
          simp [pySlice, List.take_succ_cons, List.drop_succ_cons] at h ⊢
          exact h
    | succ a =>
      cases b with
      | zero => exact absurd hab (by omega)
      | succ b =>
        cases c with
        | zero => exact absurd hbc (by omega)
        | succ c =>
          have h := ih a b c (Nat.le_of_succ_le_succ hab) (Nat.le_of_succ_le_succ hbc)
          simpa [pySlice, List.take_succ_cons, List.drop_succ_cons] using h

/-- A Python slice followed by the drop from its end is the drop from its
start. -/
theorem pySlice_drop (t : List Char) : ∀ k j : Nat, k ≤ j →
    pySlice t k j ++ t.drop j = t.drop k := by
  induction t with
  | nil => intro k j _; simp [pySlice]
  | cons x t ih =>
    intro k j hkj
    cases k with
    | zero =>
      cases j with
      | zero => simp [pySlice]
      | succ j =>
        simp [pySlice, List.take_succ_cons, List.drop_succ_cons]
    | succ k =>
      cases j with
      | zero => exact absurd hkj (by omega)
      | succ j =>
        simpa [pySlice, List.take_succ_cons, List.drop_succ_cons]
          using ih k j (Nat.le_of_succ_le_succ hkj)

/-- The rendering loop with the identity wrapper reproduces the text from
the cursor on, for any well-formed span list. -/
theorem renderGo_idWrap : ∀ (spans : List (Nat × Nat)) (t : List Char) (k : Nat),
    spansOK k spans = true → renderGo t idWrap k spans = t.drop k := by
  intro spans
  induction spans with
  | nil => intro t k _; simp [renderGo]
  | cons hd tl ih =>
    obtain ⟨i, j⟩ := hd
    intro t k h
    simp only [spansOK, Bool.and_eq_true, decide_eq_true_eq] at h
    obtain ⟨⟨hki, hij⟩, hrest⟩ := h
    simp only [renderGo, idWrap]
    rw [ih t j hrest, pySlice_glue t k i j hki hij]
    exact pySlice_drop t k j (le_trans hki hij)

/-- C6. For every text and every sorted, non-overlapping span list, the
rendering loop of `markdown2` copies the regions outside the spans verbatim
and in order and wraps each span's substring, so rendering with the identity
wrapper — i.e. removing the inserted style markers — recovers exactly the
original text; and `markdown2` is exactly this rendering applied to the
located spans with the selected style wrapper. -/
theorem renderSpans_frame (text : List Char) (spans : List (Nat × Nat))
    (h : spansOK 0 spans = true) :
    renderSpans text spans idWrap = text ∧
      ∀ (tokens : List (List Char)) (fg bg : Option (List Char)),
        markdown2 text tokens fg bg =
          renderSpans text (markdown2_locate text tokens) (markdownWrap fg bg) := by
  constructor
  · have h0 := renderGo_idWrap spans text 0 h
    simpa [renderSpans] using h0
  · intro _ _ _
    rfl

/-- Witness for the frame property at a concrete text and span list. -/
theorem renderSpans_frame_witness :
    spansOK 0 c6spans = true ∧ renderSpans c6text c6spans idWrap = c6text :=
  ⟨by decide, (renderSpans_frame c6text c6spans (by decide)).1⟩

/-- C7. The highlighting function has exactly two rendering modes, selected
by the caller's background-color argument: when it is supplied (truthy),
every located span is wrapped by `markdown_bgcolor`; otherwise every located
span is wrapped by `markdown_fgcolor` in the `:color[text]` form. -/
theorem markdown2_modes (text : List Char) (tokens : List (List Char))
    (fg bg : Option (List Char)) :
    (pyTruthy bg = true →
      markdown2 text tokens fg bg =
        renderSpans text (markdown2_locate text tokens) (bgWrap (pyStrOpt bg))) ∧
    (pyTruthy bg = false →
      markdown2 text tokens fg bg =
        renderSpans text (markdown2_locate text tokens) (fgWrap (pyStrOpt fg))) := by
  constructor
  · intro h
    have hw : markdownWrap fg bg = bgWrap (pyStrOpt bg) := by
      funext s
      simp [markdownWrap, bgWrap, h]
    simp [markdown2, hw]
  · intro h
    have hw : markdownWrap fg bg = fgWrap (pyStrOpt fg) := by
      funext s
      simp [markdownWrap, fgWrap, h]
    simp [markdown2, hw]

/-- Witness for both rendering modes at concrete arguments. -/
theorem markdown2_modes_witness :
    pyTruthy (some cRed) = true ∧
      markdown2 ['a'] [['a']] none (some cRed) =
        renderSpans ['a'] (markdown2_locate ['a'] [['a']])
          (bgWrap (pyStrOpt (some cRed))) ∧
      pyTruthy none = false ∧
      markdown2 ['a'] [['a']] (some cRed) none =
        renderSpans ['a'] (markdown2_locate ['a'] [['a']])
          (fgWrap (pyStrOpt (some cRed))) :=
  ⟨by decide, (markdown2_modes ['a'] [['a']] none (some cRed)).1 (by decide),
    by decide, (markdown2_modes ['a'] [['a']] (some cRed) none).2 (by decide)⟩

/-- C8. The locator and highlighting pipeline is deterministic: two runs on
the same unchanged inputs produce identical output.  The embedding is a pure
function of its arguments — faithful to the source, which reads no mutable
state in `markdown2` or the tier calls — so equal inputs give equal span
lists and equal rendered text. -/
theorem markdown2_deterministic (t1 t2 : List Char)
    (k1 k2 : List (List Char)) (fg1 fg2 bg1 bg2 : Option (List Char))
    (ht : t1 = t2) (hk : k1 = k2) (hf : fg1 = fg2) (hb : bg1 = bg2) :
    markdown2_locate t1 k1 = markdown2_locate t2 k2 ∧
      markdown2 t1 k1 fg1 bg1 = markdown2 t2 k2 fg2 bg2 := by
  subst ht hk hf hb
  exact ⟨rfl, rfl⟩

/-- Witness: two runs at a concrete input agree. -/
theorem markdown2_deterministic_witness :
    (['a'] : List Char) = ['a'] ∧
      markdown2_locate ['a'] [['a']] = markdown2_locate ['a'] [['a']] ∧
      markdown2 ['a'] [['a']] none (some cRed) =
        markdown2 ['a'] [['a']] none (some cRed) :=
  ⟨rfl,
    (markdown2_deterministic ['a'] ['a'] [['a']] [['a']] none none
      (some cRed) (some cRed) rfl rfl rfl rfl).1,
    (markdown2_deterministic ['a'] ['a'] [['a']] [['a']] none none
      (some cRed) (some cRed) rfl rfl rfl rfl).2⟩
